import Mathlib

/-!
Shallow embedding of `supabase/functions/generate-notebook-content/index.ts`.

The handler is an async HTTP function: it parses a JSON request body,
validates it, reads two environment variables, writes
`generation_status = 'generating'` to the notebook row, resolves a payload
from the `sources` table (or the request's `filePath`), POSTs it to an
external web service, parses the response in one of two shapes, and persists
a content bundle with `generation_status = 'completed'`, with `failed`
status writes on the explicit error paths and a top-level catch that makes a
best-effort `failed` write after re-reading the request body.

We model every external interaction as a field of a `World` value:
  * `reqBody`    — the result of the first `await req.json()` (`Except.error`
                   means the call threw);
  * `reqBody2`   — the result of the second `await req.json()` inside the
                   top-level catch (in practice this usually throws because
                   the body stream is already consumed);
  * `envUrl`/`envAuth` — `Deno.env.get('NOTEBOOK_GENERATION_URL' / '..AUTH')`;
  * `sources`    — the rows of the `sources` table (the store's
                   `eq/eq/order/limit(1)/single()` query is computed from it);
  * `fetchThrows`/`fetchOk` — whether `fetch` throws, and `response.ok`;
  * `genData`    — the result of `response.json()` (`Except.error` = threw);
  * `notebookUpdateError` — whether the final content update returns an error;
  * `catchWriteFails` — whether the best-effort `failed` write in the catch
                   block fails (the code swallows that failure).

JavaScript truthiness of the string-valued fields the code tests with `!x`
(`undefined`, `null` and `""` are falsy) is modeled by `truthyS` on
`Option String`: `none` stands for absent/undefined/null and `some ""` for
the empty string.

The handler ignores the results of the intermediate status writes
(`generating` and the explicit `failed` writes); following the spec's
abstraction level we model those writes as applied.  The one write whose
result the code checks — the final content update — carries an explicit
success flag.  The `OPTIONS` preflight early return is transport plumbing
outside the claims and is not modeled.
-/

/-- JS truthiness for an optional string value: `undefined`/`null`/`""` are
falsy, every other string is truthy. -/
def truthyS : Option String → Bool
  | none => false
  | some s => !(s == "")

/-- `x || d` on an optional string with a string default, as used for
`notebookIcon || '📝'` and `backgroundColor || 'gray'`. -/
def orDefault (x : Option String) (d : String) : String :=
  match x with
  | none => d
  | some s => if s == "" then d else s

/-- `description || null`: a falsy description is persisted as null. -/
def orNull (x : Option String) : Option String :=
  match x with
  | none => none
  | some s => if s == "" then none else some s

/-- The parsed JSON request body `{ notebookId, filePath, sourceType }`.
`none` stands for an absent (or null) field. -/
structure ReqBody where
  notebookId : Option String
  filePath : Option String
  sourceType : Option String
  deriving DecidableEq, Repr

/-- A row of the `sources` table, restricted to the columns the handler
selects (`content`, `title`, `url`) plus the filter/order columns. -/
structure SourceRow where
  notebook_id : String
  type : String
  content : Option String
  url : Option String
  title : Option String
  created_at : Nat
  deriving DecidableEq, Repr

/-- The payload sent to the external web service.  The code builds
`{ sourceType }` and then adds `content`/`title` (text), `filePath`/`title`
(website, with `filePath = source.url`) or `filePath` (file sources). -/
structure Payload where
  sourceType : String
  content : Option String
  title : Option String
  filePath : Option String
  deriving DecidableEq, Repr

/-- The fields the handler reads out of the external service's response,
either from `generatedData.output` or from the top level. -/
structure GenFields where
  title : Option String
  summary : Option String
  notebook_icon : Option String
  background_color : Option String
  example_questions : Option (List String)
  deriving DecidableEq, Repr

/-- The JSON value returned by `response.json()`: either a falsy value
(`null`, `false`, ...) or an object.  `output = some f` models a truthy
`output` field holding an object; `none` models `output` absent or falsy.
`top` holds the top-level fields of the object itself. -/
inductive GenData where
  | nullish : GenData
  | obj (output : Option GenFields) (top : GenFields) : GenData
  deriving DecidableEq, Repr

/-- The five local variables `title, description, notebookIcon,
backgroundColor, exampleQuestions` after the shape-discrimination block
(lines 165–193): `exampleQuestions` has already been defaulted to `[]`. -/
structure Parsed where
  title : Option String
  description : Option String
  notebook_icon : Option String
  background_color : Option String
  exampleQuestions : List String
  deriving DecidableEq, Repr

/-- Shape discrimination (lines 167–193): if `generatedData` is truthy and
`generatedData.output` is truthy, unwrap from `output`; else if
`generatedData.title` is truthy, read the top-level fields; else the format
is invalid (`none`). -/
def parseGen : GenData → Option Parsed
  | GenData.nullish => none
  | GenData.obj (some f) _ =>
      some ⟨f.title, f.summary, f.notebook_icon, f.background_color,
            f.example_questions.getD []⟩
  | GenData.obj none top =>
      if truthyS top.title then
        some ⟨top.title, top.summary, top.notebook_icon, top.background_color,
              top.example_questions.getD []⟩
      else none

/-- The content bundle written by the final notebook update (lines 210–220),
with the defaulting the code applies there. -/
structure Bundle where
  title : String
  description : Option String
  icon : String
  color : String
  example_questions : List String
  deriving DecidableEq, Repr

/-- Build the persisted bundle from the parsed fields, applying the
defaulting of lines 213–217. -/
def mkBundle (p : Parsed) : Bundle :=
  ⟨p.title.getD "", orNull p.description, orDefault p.notebook_icon "📝",
   orDefault p.background_color "gray", p.exampleQuestions⟩

/-- The notebook record's fields mutated by this handler. -/
structure Notebook where
  title : Option String
  description : Option String
  icon : Option String
  color : Option String
  example_questions : Option (List String)
  generation_status : Option String
  deriving DecidableEq, Repr

/-- Apply the successful content update to a notebook record. -/
def applyBundle (b : Bundle) (nb : Notebook) : Notebook :=
  { nb with
    title := some b.title
    description := b.description
    icon := some b.icon
    color := some b.color
    example_questions := some b.example_questions
    generation_status := some "completed" }

/-- A store write issued by the handler, with whether the store accepted
it.  Intermediate status writes are modeled as accepted (the code ignores
their results); the final content write's flag comes from the world. -/
inductive WriteOp where
  | setStatus (s : String) (ok : Bool) : WriteOp
  | setContent (b : Bundle) (ok : Bool) : WriteOp
  deriving DecidableEq, Repr

/-- An HTTP response body: an error object `{ error: msg }` or the success
body of lines 232–243, which echoes the raw (un-defaulted) parsed values. -/
inductive RespBody where
  | err (msg : String) : RespBody
  | ok (title : String) (description icon color : Option String)
       (exampleQuestions : List String) : RespBody
  deriving DecidableEq, Repr

/-- An HTTP response: status code and body. -/
structure Resp where
  status : Nat
  body : RespBody
  deriving DecidableEq, Repr

instance exceptDecEq {ε α : Type} [DecidableEq ε] [DecidableEq α] :
    DecidableEq (Except ε α) := fun a b =>
  match a, b with
  | Except.ok x, Except.ok y =>
      if h : x = y then isTrue (by rw [h])
      else isFalse (by intro hh; injection hh with h2; exact h h2)
  | Except.error x, Except.error y =>
      if h : x = y then isTrue (by rw [h])
      else isFalse (by intro hh; injection hh with h2; exact h h2)
  | Except.ok _, Except.error _ => isFalse (fun h => Except.noConfusion h)
  | Except.error _, Except.ok _ => isFalse (fun h => Except.noConfusion h)

/-- All external inputs of one request, fixed up front (see module
docstring). -/
structure World where
  reqBody : Except Unit ReqBody
  reqBody2 : Except Unit ReqBody
  envUrl : Option String
  envAuth : Option String
  sources : List SourceRow
  fetchThrows : Bool
  fetchOk : Bool
  genData : Except Unit GenData
  notebookUpdateError : Bool
  catchWriteFails : Bool
  deriving DecidableEq, Repr

/-- `order('created_at', descending).limit(1)`: the row with the greatest
`created_at` among the filtered rows, `none` when there are no rows (which
makes `.single()` report an error). -/
def mostRecent : List SourceRow → Option SourceRow
  | [] => none
  | r :: rs =>
      match mostRecent rs with
      | none => some r
      | some a => if a.created_at > r.created_at then some a else some r

/-- The store query for a given source type:
`from('sources').select(..).eq('notebook_id', nbId).eq('type', ty)
.order('created_at', desc).limit(1).single()`. -/
def sourceQuery (sources : List SourceRow) (nbId ty : String) : Option SourceRow :=
  mostRecent (sources.filter fun r => r.notebook_id == nbId && r.type == ty)

/-- The source-resolution block (lines 61–130), factored as a function:
each failure path returns the error message that the inline code pairs with
a `failed` status write and a 500 response. -/
def resolveSource (sources : List SourceRow) (nbId st : String)
    (filePath : Option String) : Except String Payload :=
  if st == "text" then
    match sourceQuery sources nbId "text" with
    | none => Except.error "Failed to get text content for processing"
    | some r =>
        if truthyS r.content then
          Except.ok ⟨st, r.content, r.title, none⟩
        else Except.error "Failed to get text content for processing"
  else if st == "website" then
    match sourceQuery sources nbId "website" with
    | none => Except.error "Failed to get website URL for processing"
    | some r =>
        if truthyS r.url then
          Except.ok ⟨st, none, r.title, r.url⟩
        else Except.error "Failed to get website URL for processing"
  else if truthyS filePath then
    Except.ok ⟨st, none, none, filePath⟩
  else Except.error "No valid source data found for generation"

/-- Outcome of the code inside the `try` block: either a returned response
or a thrown exception (`Except.error ()`), together with the notebook
state, the store writes issued, whether `fetch` was called, and the payload
it was called with. -/
structure InnerOut where
  result : Except Unit Resp
  nb : Notebook
  writes : List WriteOp
  externalCalled : Bool
  sentPayload : Option Payload
  deriving DecidableEq, Repr

def jsonHeaders : Unit := ()

/-- The body of the `try` block (lines 14–243). -/
def handleInner (w : World) (nb : Notebook) : InnerOut :=
  match w.reqBody with
  | Except.error _ => ⟨Except.error (), nb, [], false, none⟩
  | Except.ok b =>
      if !(truthyS b.notebookId) || !(truthyS b.sourceType) then
        ⟨Except.ok ⟨400, RespBody.err "notebookId and sourceType are required"⟩,
         nb, [], false, none⟩
      else if !(truthyS w.envUrl) || !(truthyS w.envAuth) then
        ⟨Except.ok ⟨500, RespBody.err "Web service configuration missing"⟩,
         nb, [], false, none⟩
      else
        let nbId := b.notebookId.getD ""
        let st := b.sourceType.getD ""
        let nb1 : Notebook := { nb with generation_status := some "generating" }
        let ws1 : List WriteOp := [WriteOp.setStatus "generating" true]
        match resolveSource w.sources nbId st b.filePath with
        | Except.error msg =>
            ⟨Except.ok ⟨500, RespBody.err msg⟩,
             { nb1 with generation_status := some "failed" },
             ws1 ++ [WriteOp.setStatus "failed" true], false, none⟩
        | Except.ok payload =>
            if w.fetchThrows then
              ⟨Except.error (), nb1, ws1, true, some payload⟩
            else if !w.fetchOk then
              ⟨Except.ok ⟨500, RespBody.err "Failed to generate content from web service"⟩,
               { nb1 with generation_status := some "failed" },
               ws1 ++ [WriteOp.setStatus "failed" true], true, some payload⟩
            else
              match w.genData with
              | Except.error _ => ⟨Except.error (), nb1, ws1, true, some payload⟩
              | Except.ok g =>
                  match parseGen g with
                  | none =>
                      ⟨Except.ok ⟨500, RespBody.err "Invalid response format from web service"⟩,
                       { nb1 with generation_status := some "failed" },
                       ws1 ++ [WriteOp.setStatus "failed" true], true, some payload⟩
                  | some p =>
                      if !(truthyS p.title) then
                        ⟨Except.ok ⟨500, RespBody.err "No title in response from web service"⟩,
                         { nb1 with generation_status := some "failed" },
                         ws1 ++ [WriteOp.setStatus "failed" true], true, some payload⟩
                      else
                        if w.notebookUpdateError then
                          ⟨Except.ok ⟨500, RespBody.err "Failed to update notebook"⟩,
                           nb1, ws1 ++ [WriteOp.setContent (mkBundle p) false],
                           true, some payload⟩
                        else
                          ⟨Except.ok ⟨200,
                             RespBody.ok (p.title.getD "") p.description
                               p.notebook_icon p.background_color p.exampleQuestions⟩,
                           applyBundle (mkBundle p) nb1,
                           ws1 ++ [WriteOp.setContent (mkBundle p) true],
                           true, some payload⟩

/-- The full outcome of one request. -/
structure Outcome where
  resp : Resp
  nb : Notebook
  writes : List WriteOp
  externalCalled : Bool
  sentPayload : Option Payload
  deriving DecidableEq, Repr

/-- The whole handler: the `try` body plus the top-level catch
(lines 245–270), which re-reads the body, makes a best-effort `failed`
write when a truthy `notebookId` is recovered, swallows any error from that
attempt, and returns 500 `Internal server error`. -/
def handle (w : World) (nb : Notebook) : Outcome :=
  let i := handleInner w nb
  match i.result with
  | Except.ok r => ⟨r, i.nb, i.writes, i.externalCalled, i.sentPayload⟩
  | Except.error _ =>
      let cleaned : Notebook × List WriteOp :=
        match w.reqBody2 with
        | Except.ok b =>
            if truthyS b.notebookId then
              if w.catchWriteFails then
                (i.nb, i.writes ++ [WriteOp.setStatus "failed" false])
              else
                ({ i.nb with generation_status := some "failed" },
                 i.writes ++ [WriteOp.setStatus "failed" true])
            else (i.nb, i.writes)
        | Except.error _ => (i.nb, i.writes)
      ⟨⟨500, RespBody.err "Internal server error"⟩, cleaned.1, cleaned.2,
       i.externalCalled, i.sentPayload⟩

/-- An empty notebook record, used for concrete runs. -/
def nb0 : Notebook := ⟨none, none, none, none, none, none⟩

/-- A concrete world realizing the spec's end-to-end success scenario:
request `{notebookId:"n1", sourceType:"text"}`, one text source row, a
wrapped response `{output:{title:"Doc", summary:"sum",
example_questions:["q1"]}}`.  Witnesses and counterexamples perturb it. -/
def wS : World :=
  ⟨Except.ok ⟨some "n1", none, some "text"⟩, Except.error (),
   some "http://svc", some "tok",
   [⟨"n1", "text", some "hello", none, some "Doc", 1⟩],
   false, true,
   Except.ok (GenData.obj
     (some ⟨some "Doc", some "sum", none, none, some ["q1"]⟩)
     ⟨none, none, none, none, none⟩),
   false, false⟩

/-- The success world with a failing final content update. -/
def wPersist : World := { wS with notebookUpdateError := true }

/-- The success world where `fetch` throws and the catch block manages to
re-read the request body. -/
def wThrow : World :=
  { wS with fetchThrows := true,
            reqBody2 := Except.ok ⟨some "n1", none, some "text"⟩ }

/-- The success world with a flattened service response that has no
`title`. -/
def wFlatNoTitle : World :=
  { wS with genData := Except.ok (GenData.obj none ⟨none, some "S", none, none, none⟩) }

/-- The success world with a wrapped service response whose `output` has no
`title`. -/
def wWrapNoTitle : World :=
  { wS with genData := Except.ok (GenData.obj (some ⟨none, some "S", none, none, none⟩) ⟨none, none, none, none, none⟩) }

/-- The `title` field the shape-discrimination block would read, for either
shape: from `output` when `output` is truthy, else from the top level. -/
def shapeTitle : GenData → Option String
  | GenData.nullish => none
  | GenData.obj (some f) _ => f.title
  | GenData.obj none top => top.title

/-- Whether the response is in the wrapped shape (truthy `output`). -/
def isWrapped : GenData → Bool
  | GenData.obj (some _) _ => true
  | _ => false

theorem mostRecent_mem : ∀ (l : List SourceRow) (a : SourceRow),
    mostRecent l = some a → a ∈ l := by
  intro l
  induction l with
  | nil => intro a h; simp [mostRecent] at h
  | cons x xs ih =>
      intro a h
      cases hx : mostRecent xs with
      | none =>
          simp only [mostRecent, hx] at h
          cases h
          exact List.mem_cons_self _ _
      | some b =>
          simp only [mostRecent, hx] at h
          split at h
          · cases h
            exact List.mem_cons_of_mem _ (ih _ hx)
          · cases h
            exact List.mem_cons_self _ _

theorem mostRecent_eq_of_strict : ∀ (l : List SourceRow) (r : SourceRow),
    r ∈ l → (∀ r' ∈ l, r' = r ∨ r'.created_at < r.created_at) →
    mostRecent l = some r := by
  intro l
  induction l with
  | nil => intro r h; simp at h
  | cons x xs ih =>
      intro r hmem hmax
      rcases List.mem_cons.mp hmem with hxr | hrt
      · subst hxr
        cases hx : mostRecent xs with
        | none => simp [mostRecent, hx]
        | some a =>
            have ha : a ∈ xs := mostRecent_mem xs a hx
            simp only [mostRecent, hx]
            rcases hmax a (List.mem_cons_of_mem _ ha) with h1 | h1
            · subst h1; simp
            · rw [if_neg (by omega : ¬ a.created_at > r.created_at)]
      · have hmr : mostRecent xs = some r :=
          ih r hrt (fun r' hr' => hmax r' (List.mem_cons_of_mem _ hr'))
        simp only [mostRecent, hmr]
        rcases hmax x (List.mem_cons_self _ _) with h1 | h1
        · subst h1; simp
        · rw [if_pos (by omega : r.created_at > x.created_at)]

theorem handle_sentPayload (w : World) (nb : Notebook) :
    (handle w nb).sentPayload = (handleInner w nb).sentPayload := by
  unfold handle
  cases hres : (handleInner w nb).result <;> simp [hres]

theorem handle_externalCalled (w : World) (nb : Notebook) :
    (handle w nb).externalCalled = (handleInner w nb).externalCalled := by
  unfold handle
  cases hres : (handleInner w nb).result <;> simp [hres]

/-- Case characterization of the `try` body when the final content write
does not fail: it either throws, never writes `generating`, or leaves the
notebook in a terminal status. -/
theorem inner_cases (w : World) (nb : Notebook)
    (h : w.notebookUpdateError = false) :
    (handleInner w nb).result = Except.error () ∨
    (WriteOp.setStatus "generating" true ∉ (handleInner w nb).writes) ∨
    (handleInner w nb).nb.generation_status = some "completed" ∨
    (handleInner w nb).nb.generation_status = some "failed" := by
  cases hrb : w.reqBody with
  | error e => simp [handleInner, hrb]
  | ok b =>
      by_cases h1 : (!truthyS b.notebookId || !truthyS b.sourceType) = true
      · simp [handleInner, hrb, h1]
      · by_cases h2 : (!truthyS w.envUrl || !truthyS w.envAuth) = true
        · simp [handleInner, hrb, h1, h2]
        · cases hr : resolveSource w.sources (b.notebookId.getD "")
              (b.sourceType.getD "") b.filePath with
          | error msg => simp [handleInner, hrb, h1, h2, hr]
          | ok pay =>
              cases hft : w.fetchThrows with
              | true => simp [handleInner, hrb, h1, h2, hr, hft]
              | false =>
                  cases hfo : w.fetchOk with
                  | false => simp [handleInner, hrb, h1, h2, hr, hft, hfo]
                  | true =>
                      cases hgd : w.genData with
                      | error e =>
                          simp [handleInner, hrb, h1, h2, hr, hft, hfo, hgd]
                      | ok g =>
                          cases hp : parseGen g with
                          | none =>
                              simp [handleInner, hrb, h1, h2, hr, hft, hfo,
                                    hgd, hp]
                          | some p =>
                              by_cases ht : (!truthyS p.title) = true
                              · simp [handleInner, hrb, h1, h2, hr, hft, hfo,
                                      hgd, hp, ht]
                              · simp [handleInner, hrb, h1, h2, hr, hft, hfo,
                                      hgd, hp, ht, h, applyBundle]

/-- C2: for every request whose parsed JSON body lacks `notebookId` or
lacks `sourceType` (missing or otherwise falsy), the handler returns HTTP
400 with body `{ error: "notebookId and sourceType are required" }` and
performs no store write of any kind, in particular no `generating` write. -/
theorem c2_validation_no_write (w : World) (nb : Notebook) (b : ReqBody)
    (hb : w.reqBody = Except.ok b)
    (hmiss : truthyS b.notebookId = false ∨ truthyS b.sourceType = false) :
    (handle w nb).resp =
      ⟨400, RespBody.err "notebookId and sourceType are required"⟩ ∧
    (handle w nb).writes = [] ∧ (handle w nb).nb = nb := by
  rcases hmiss with h | h <;> simp [handle, handleInner, hb, h]

theorem c2_validation_no_write_witness :
    (handle { wS with reqBody := Except.ok ⟨some "n1", none, none⟩ } nb0).resp =
      ⟨400, RespBody.err "notebookId and sourceType are required"⟩ ∧
    (handle { wS with reqBody := Except.ok ⟨some "n1", none, none⟩ } nb0).writes = [] ∧
    (handle { wS with reqBody := Except.ok ⟨some "n1", none, none⟩ } nb0).nb = nb0 :=
  c2_validation_no_write _ nb0 ⟨some "n1", none, none⟩ rfl (Or.inr rfl)

/-- C3: for every request with truthy `notebookId` and `sourceType` but a
missing/falsy generation endpoint URL or auth token, the handler returns
HTTP 500 with body `{ error: "Web service configuration missing" }`, writes
nothing to the store (no `generating` write), and never calls the external
service. -/
theorem c3_config_missing (w : World) (nb : Notebook) (b : ReqBody)
    (hb : w.reqBody = Except.ok b)
    (hid : truthyS b.notebookId = true) (hst : truthyS b.sourceType = true)
    (hcfg : truthyS w.envUrl = false ∨ truthyS w.envAuth = false) :
    (handle w nb).resp =
      ⟨500, RespBody.err "Web service configuration missing"⟩ ∧
    (handle w nb).writes = [] ∧
    (handle w nb).externalCalled = false ∧
    (handle w nb).nb = nb := by
  rcases hcfg with h | h <;> simp [handle, handleInner, hb, hid, hst, h]

theorem c3_config_missing_witness :
    (handle { wS with envAuth := none } nb0).resp =
      ⟨500, RespBody.err "Web service configuration missing"⟩ ∧
    (handle { wS with envAuth := none } nb0).writes = [] ∧
    (handle { wS with envAuth := none } nb0).externalCalled = false ∧
    (handle { wS with envAuth := none } nb0).nb = nb0 :=
  c3_config_missing _ nb0 ⟨some "n1", none, some "text"⟩ rfl (by decide)
    (by decide) (Or.inr rfl)

/-- C1 counterexample: on the persist-failure path the handler resolves
(with a 500 response) after writing `generating`, yet the notebook record
still has `generation_status = 'generating'` — no terminal status write
took effect. -/
theorem c1_counterexample :
    (handle wPersist nb0).resp.status = 500 ∧
    WriteOp.setStatus "generating" true ∈ (handle wPersist nb0).writes ∧
    (handle wPersist nb0).nb.generation_status = some "generating" := by
  decide

/-- C1 (amended): once the handler has written `generating`, it leaves the
notebook in a terminal status (`completed` or `failed`) before returning on
every control path EXCEPT (a) the persist-failure path, where the notebook
may remain in `generating`, and (b) the top-level catch path when the
best-effort cleanup cannot run (re-reading the body fails, yields no truthy
`notebookId`, or the cleanup write itself fails). -/
theorem c1_amended_terminal_status (w : World) (nb : Notebook)
    (hpersist : w.notebookUpdateError = false)
    (hcatch : (handleInner w nb).result = Except.error () →
        (∃ b, w.reqBody2 = Except.ok b ∧ truthyS b.notebookId = true) ∧
        w.catchWriteFails = false)
    (hgen : WriteOp.setStatus "generating" true ∈ (handle w nb).writes) :
    (handle w nb).nb.generation_status = some "completed" ∨
    (handle w nb).nb.generation_status = some "failed" := by
  cases hres : (handleInner w nb).result with
  | ok r =>
      have hw : (handle w nb).writes = (handleInner w nb).writes := by
        unfold handle; simp [hres]
      have hn : (handle w nb).nb = (handleInner w nb).nb := by
        unfold handle; simp [hres]
      rw [hn]
      rcases inner_cases w nb hpersist with h | h | h | h
      · rw [hres] at h; exact absurd h (by simp)
      · rw [hw] at hgen; exact absurd hgen h
      · exact Or.inl h
      · exact Or.inr h
  | error e =>
      obtain ⟨⟨b, hb2, hbid⟩, hcwf⟩ := hcatch (by rw [hres])
      right
      unfold handle
      simp [hres, hb2, hbid, hcwf]

theorem c1_amended_terminal_status_witness :
    (handle wS nb0).nb.generation_status = some "completed" ∨
    (handle wS nb0).nb.generation_status = some "failed" :=
  c1_amended_terminal_status wS nb0 (by decide)
    (fun h => absurd h (by decide)) (by decide)

/-- C9: whenever the `try` body throws, the top-level catch re-reads the
request body; if that re-read succeeds and yields a truthy `notebookId` it
attempts one `failed` status write (which takes effect exactly when the
store accepts it); any failure of the re-read is swallowed (no write); and
in every case the handler returns HTTP 500 with body
`{ error: "Internal server error" }`. -/
theorem c9_top_level_catch (w : World) (nb : Notebook)
    (hthrow : (handleInner w nb).result = Except.error ()) :
    (handle w nb).resp = ⟨500, RespBody.err "Internal server error"⟩ ∧
    (∀ b, w.reqBody2 = Except.ok b → truthyS b.notebookId = true →
        (handle w nb).writes = (handleInner w nb).writes ++
          [WriteOp.setStatus "failed" (!w.catchWriteFails)] ∧
        (w.catchWriteFails = false →
          (handle w nb).nb.generation_status = some "failed")) ∧
    (∀ b, w.reqBody2 = Except.ok b → truthyS b.notebookId = false →
        (handle w nb).writes = (handleInner w nb).writes ∧
        (handle w nb).nb = (handleInner w nb).nb) ∧
    (∀ e, w.reqBody2 = Except.error e →
        (handle w nb).writes = (handleInner w nb).writes ∧
        (handle w nb).nb = (handleInner w nb).nb) := by
  refine ⟨?_, ?_, ?_, ?_⟩
  · unfold handle; simp [hthrow]
  · intro b hb2 hbid
    cases hcw : w.catchWriteFails with
    | true =>
        constructor
        · unfold handle; simp [hthrow, hb2, hbid, hcw]
        · intro hc; exact absurd hc (by simp)
    | false =>
        constructor
        · unfold handle; simp [hthrow, hb2, hbid, hcw]
        · intro _; unfold handle; simp [hthrow, hb2, hbid, hcw]
  · intro b hb2 hbid
    constructor
    · unfold handle; simp [hthrow, hb2, hbid]
    · unfold handle; simp [hthrow, hb2, hbid]
  · intro e hb2
    constructor
    · unfold handle; simp [hthrow, hb2]
    · unfold handle; simp [hthrow, hb2]

theorem c9_top_level_catch_witness :
    (handle wThrow nb0).resp = ⟨500, RespBody.err "Internal server error"⟩ ∧
    (∀ b, wThrow.reqBody2 = Except.ok b → truthyS b.notebookId = true →
        (handle wThrow nb0).writes = (handleInner wThrow nb0).writes ++
          [WriteOp.setStatus "failed" (!wThrow.catchWriteFails)] ∧
        (wThrow.catchWriteFails = false →
          (handle wThrow nb0).nb.generation_status = some "failed")) ∧
    (∀ b, wThrow.reqBody2 = Except.ok b → truthyS b.notebookId = false →
        (handle wThrow nb0).writes = (handleInner wThrow nb0).writes ∧
        (handle wThrow nb0).nb = (handleInner wThrow nb0).nb) ∧
    (∀ e, wThrow.reqBody2 = Except.error e →
        (handle wThrow nb0).writes = (handleInner wThrow nb0).writes ∧
        (handle wThrow nb0).nb = (handleInner wThrow nb0).nb) :=
  c9_top_level_catch wThrow nb0 (by decide)

/-- After a successful source resolution, the payload recorded as sent to
the external service is the resolved payload, on every subsequent control
path. -/
theorem inner_sentPayload (w : World) (nb : Notebook) (b : ReqBody)
    (pay : Payload)
    (hb : w.reqBody = Except.ok b)
    (hid : truthyS b.notebookId = true) (hst : truthyS b.sourceType = true)
    (hu : truthyS w.envUrl = true) (ha : truthyS w.envAuth = true)
    (hres : resolveSource w.sources (b.notebookId.getD "")
        (b.sourceType.getD "") b.filePath = Except.ok pay) :
    (handleInner w nb).sentPayload = some pay := by
  cases hft : w.fetchThrows with
  | true => simp [handleInner, hb, hid, hst, hu, ha, hres, hft]
  | false =>
      cases hfo : w.fetchOk with
      | false => simp [handleInner, hb, hid, hst, hu, ha, hres, hft, hfo]
      | true =>
          cases hgd : w.genData with
          | error e =>
              simp [handleInner, hb, hid, hst, hu, ha, hres, hft, hfo, hgd]
          | ok g =>
              cases hp : parseGen g with
              | none =>
                  simp [handleInner, hb, hid, hst, hu, ha, hres, hft, hfo,
                        hgd, hp]
              | some p =>
                  by_cases ht : (!truthyS p.title) = true
                  · simp [handleInner, hb, hid, hst, hu, ha, hres, hft, hfo,
                          hgd, hp, ht]
                  · cases hnue : w.notebookUpdateError <;>
                      simp [handleInner, hb, hid, hst, hu, ha, hres, hft,
                            hfo, hgd, hp, ht, hnue]

/-- C4: for a valid `sourceType = "text"` request, when the store holds a
text-type row for the notebook that is strictly the most recently created
such row and has truthy `content`, the payload sent to the external
service is `{ sourceType: "text", content, title }` drawn from that row. -/
theorem c4_text_payload (rb2 : Except Unit ReqBody) (u a : String)
    (srcs : List SourceRow) (ft fo : Bool) (gd : Except Unit GenData)
    (nue cwf : Bool) (nb : Notebook) (fp : Option String) (nbId : String)
    (r : SourceRow)
    (hnbid : nbId ≠ "")
    (hu : u ≠ "") (ha : a ≠ "")
    (hr : r ∈ srcs) (hrn : r.notebook_id = nbId) (hrt : r.type = "text")
    (hmax : ∀ r' ∈ srcs, r'.notebook_id = nbId → r'.type = "text" →
        r' = r ∨ r'.created_at < r.created_at)
    (hc : truthyS r.content = true) :
    (handle ⟨Except.ok ⟨some nbId, fp, some "text"⟩, rb2, some u, some a,
        srcs, ft, fo, gd, nue, cwf⟩ nb).sentPayload =
      some ⟨"text", r.content, r.title, none⟩ := by
  have hq : sourceQuery srcs nbId "text" = some r := by
    unfold sourceQuery
    apply mostRecent_eq_of_strict
    · rw [List.mem_filter]
      exact ⟨hr, by simp [hrn, hrt]⟩
    · intro r' hr'
      rw [List.mem_filter] at hr'
      obtain ⟨h1, h2⟩ := hr'
      simp only [Bool.and_eq_true, beq_iff_eq] at h2
      exact hmax r' h1 h2.1 h2.2
  have hresolve : resolveSource srcs nbId "text" fp =
      Except.ok ⟨"text", r.content, r.title, none⟩ := by
    simp [resolveSource, hq, hc]
  rw [handle_sentPayload]
  exact inner_sentPayload _ nb ⟨some nbId, fp, some "text"⟩ _
    rfl (by simp [truthyS, hnbid]) rfl
    (by simp [truthyS, hu]) (by simp [truthyS, ha]) hresolve

theorem c4_text_payload_witness :
    (handle ⟨Except.ok ⟨some "n1", none, some "text"⟩, Except.error (),
        some "http://svc", some "tok",
        [⟨"n1", "text", some "hello", none, some "Doc", 1⟩],
        false, true,
        Except.ok (GenData.obj (some ⟨some "Doc", some "sum", none, none, some ["q1"]⟩) ⟨none, none, none, none, none⟩),
        false, false⟩ nb0).sentPayload =
      some ⟨"text", some "hello", some "Doc", none⟩ :=
  c4_text_payload _ "http://svc" "tok" _ false true _ false false nb0 none
    "n1" ⟨"n1", "text", some "hello", none, some "Doc", 1⟩
    (by decide) (by decide) (by decide) (by decide) (by decide) (by decide)
    (by decide) (by decide)

/-- The `try` body depends on a parseable generation response only through
`parseGen`: two responses with the same parse give identical behavior. -/
theorem handleInner_parse_congr (w : World) (nb : Notebook)
    (g1 g2 : GenData) (hp : parseGen g1 = parseGen g2) :
    handleInner { w with genData := Except.ok g1 } nb =
    handleInner { w with genData := Except.ok g2 } nb := by
  cases hrb : w.reqBody with
  | error e => simp [handleInner, hrb]
  | ok b =>
      by_cases h1 : (!truthyS b.notebookId || !truthyS b.sourceType) = true
      · simp [handleInner, hrb, h1]
      · by_cases h2 : (!truthyS w.envUrl || !truthyS w.envAuth) = true
        · simp [handleInner, hrb, h1, h2]
        · cases hr : resolveSource w.sources (b.notebookId.getD "")
              (b.sourceType.getD "") b.filePath with
          | error msg => simp [handleInner, hrb, h1, h2, hr]
          | ok pay =>
              cases hft : w.fetchThrows with
              | true => simp [handleInner, hrb, h1, h2, hr, hft]
              | false =>
                  cases hfo : w.fetchOk with
                  | false => simp [handleInner, hrb, h1, h2, hr, hft, hfo]
                  | true =>
                      simp only [handleInner, hrb, h1, h2, hr, hft, hfo]
                      simp [hp]
  
/-- C5: response reconciliation is shape-tolerant — for every non-empty
title `T` and summary `S`, the wrapped response `{output:{title:T,
summary:S}}` and the flattened response `{title:T, summary:S}` lead to
identical outcomes: the same persisted content bundle, the same notebook
record, the same response. -/
theorem c5_shape_tolerant (w : World) (nb : Notebook) (T S : String)
    (hT : T ≠ "") :
    handle { w with genData := Except.ok (GenData.obj (some ⟨some T, some S, none, none, none⟩) ⟨none, none, none, none, none⟩) } nb =
    handle { w with genData := Except.ok (GenData.obj none ⟨some T, some S, none, none, none⟩) } nb := by
  have hp : parseGen (GenData.obj (some ⟨some T, some S, none, none, none⟩) ⟨none, none, none, none, none⟩) =
      parseGen (GenData.obj none ⟨some T, some S, none, none, none⟩) := by
    simp [parseGen, truthyS, hT]
  have hinner := handleInner_parse_congr w nb _ _ hp
  unfold handle
  rw [hinner]

theorem c5_shape_tolerant_witness :
    handle { wS with genData := Except.ok (GenData.obj (some ⟨some "Doc", some "sum", none, none, none⟩) ⟨none, none, none, none, none⟩) } nb0 =
    handle { wS with genData := Except.ok (GenData.obj none ⟨some "Doc", some "sum", none, none, none⟩) } nb0 :=
  c5_shape_tolerant wS nb0 "Doc" "sum" (by decide)

/-- C6 counterexample: for a flattened response with `title` absent, the
handler's error message is "Invalid response format from web service", not
"No title in response from web service" as the claim states — the flat
shape is discriminated by a truthy top-level `title`, so an empty/absent
title never reaches the missing-title branch. -/
theorem c6_counterexample :
    (handle wFlatNoTitle nb0).resp.body =
      RespBody.err "Invalid response format from web service" ∧
    (handle wFlatNoTitle nb0).resp.body ≠
      RespBody.err "No title in response from web service" ∧
    (handle wFlatNoTitle nb0).nb.generation_status = some "failed" := by
  decide

/-- C6 (amended): for every external-service response whose title (in
whichever shape applies) is empty or absent, the notebook ends in
`generation_status = 'failed'` with no content field overwritten, and the
500 response carries "No title in response from web service" when the
response is wrapped (truthy `output`) but "Invalid response format from web
service" otherwise — in the flattened shape an empty/absent title fails
shape discrimination itself. -/
theorem c6_no_title (rb2 : Except Unit ReqBody) (b : ReqBody) (u a : String)
    (srcs : List SourceRow) (g : GenData) (pay : Payload) (nue cwf : Bool)
    (nb : Notebook)
    (hid : truthyS b.notebookId = true) (hst : truthyS b.sourceType = true)
    (hu : u ≠ "") (ha : a ≠ "")
    (hres : resolveSource srcs (b.notebookId.getD "") (b.sourceType.getD "")
        b.filePath = Except.ok pay)
    (htitle : truthyS (shapeTitle g) = false) :
    handle ⟨Except.ok b, rb2, some u, some a, srcs, false, true,
        Except.ok g, nue, cwf⟩ nb =
      ⟨⟨500, RespBody.err (if isWrapped g
          then "No title in response from web service"
          else "Invalid response format from web service")⟩,
       { nb with generation_status := some "failed" },
       [WriteOp.setStatus "generating" true, WriteOp.setStatus "failed" true],
       true, some pay⟩ := by
  have hu2 : truthyS (some u) = true := by simp [truthyS, hu]
  have ha2 : truthyS (some a) = true := by simp [truthyS, ha]
  cases g with
  | nullish =>
      simp [handle, handleInner, hid, hst, hu2, ha2, hres, parseGen,
            isWrapped]
  | obj o top =>
      cases o with
      | some f =>
          simp only [shapeTitle] at htitle
          simp [handle, handleInner, hid, hst, hu2, ha2, hres,
                parseGen, isWrapped, htitle]
      | none =>
          simp only [shapeTitle] at htitle
          simp [handle, handleInner, hid, hst, hu2, ha2, hres,
                parseGen, isWrapped, htitle]

theorem c6_no_title_witness :
    handle ⟨Except.ok ⟨some "n1", none, some "text"⟩, Except.error (),
        some "http://svc", some "tok",
        [⟨"n1", "text", some "hello", none, some "Doc", 1⟩],
        false, true,
        Except.ok (GenData.obj (some ⟨none, some "S", none, none, none⟩) ⟨none, none, none, none, none⟩),
        false, false⟩ nb0 =
      ⟨⟨500, RespBody.err (if isWrapped (GenData.obj (some ⟨none, some "S", none, none, none⟩) ⟨none, none, none, none, none⟩)
          then "No title in response from web service"
          else "Invalid response format from web service")⟩,
       { nb0 with generation_status := some "failed" },
       [WriteOp.setStatus "generating" true, WriteOp.setStatus "failed" true],
       true, some ⟨"text", some "hello", some "Doc", none⟩⟩ :=
  c6_no_title _ ⟨some "n1", none, some "text"⟩ "http://svc" "tok" _
    (GenData.obj (some ⟨none, some "S", none, none, none⟩) ⟨none, none, none, none, none⟩)
    ⟨"text", some "hello", some "Doc", none⟩ false false nb0
    (by decide) (by decide) (by decide) (by decide) (by decide) (by decide)

/-- C8: when every earlier stage succeeds but the store rejects the final
content-plus-`completed` write, the handler returns HTTP 500 with body
`{ error: "Failed to update notebook" }`, performs no further status write
(in particular no `failed` write), and leaves the notebook exactly as the
store left it — still `generating`. -/
theorem c8_persist_failure (rb2 : Except Unit ReqBody) (b : ReqBody)
    (u a : String) (srcs : List SourceRow) (g : GenData) (p : Parsed)
    (pay : Payload) (cwf : Bool) (nb : Notebook)
    (hid : truthyS b.notebookId = true) (hst : truthyS b.sourceType = true)
    (hu : u ≠ "") (ha : a ≠ "")
    (hres : resolveSource srcs (b.notebookId.getD "") (b.sourceType.getD "")
        b.filePath = Except.ok pay)
    (hg : parseGen g = some p) (ht : truthyS p.title = true) :
    handle ⟨Except.ok b, rb2, some u, some a, srcs, false, true,
        Except.ok g, true, cwf⟩ nb =
      ⟨⟨500, RespBody.err "Failed to update notebook"⟩,
       { nb with generation_status := some "generating" },
       [WriteOp.setStatus "generating" true,
        WriteOp.setContent (mkBundle p) false],
       true, some pay⟩ := by
  have hu2 : truthyS (some u) = true := by simp [truthyS, hu]
  have ha2 : truthyS (some a) = true := by simp [truthyS, ha]
  simp [handle, handleInner, hid, hst, hu2, ha2, hres, hg, ht]

theorem c8_persist_failure_witness :
    handle ⟨Except.ok ⟨some "n1", none, some "text"⟩, Except.error (),
        some "http://svc", some "tok",
        [⟨"n1", "text", some "hello", none, some "Doc", 1⟩],
        false, true,
        Except.ok (GenData.obj (some ⟨some "Doc", some "sum", none, none, some ["q1"]⟩) ⟨none, none, none, none, none⟩),
        true, false⟩ nb0 =
      ⟨⟨500, RespBody.err "Failed to update notebook"⟩,
       { nb0 with generation_status := some "generating" },
       [WriteOp.setStatus "generating" true,
        WriteOp.setContent (mkBundle ⟨some "Doc", some "sum", none, none, ["q1"]⟩) false],
       true, some ⟨"text", some "hello", some "Doc", none⟩⟩ :=
  c8_persist_failure _ ⟨some "n1", none, some "text"⟩ "http://svc" "tok" _
    (GenData.obj (some ⟨some "Doc", some "sum", none, none, some ["q1"]⟩) ⟨none, none, none, none, none⟩)
    ⟨some "Doc", some "sum", none, none, ["q1"]⟩
    ⟨"text", some "hello", some "Doc", none⟩ false nb0
    (by decide) (by decide) (by decide) (by decide) (by decide) (by decide)
    (by decide)

/-- C7: on the success path the persisted record is exactly
`applyBundle (mkBundle p)` over the `generating` record, and the bundle's
defaulting is: `description` falsy ↦ null, `notebook_icon` absent ↦ the
placeholder glyph, `background_color` absent ↦ the neutral value, and
`example_questions` absent ↦ the empty list (applied already at parse
time). -/
theorem c7_defaulting (rb2 : Except Unit ReqBody) (b : ReqBody)
    (u a : String) (srcs : List SourceRow) (g : GenData) (p : Parsed)
    (pay : Payload) (cwf : Bool) (nb : Notebook)
    (hid : truthyS b.notebookId = true) (hst : truthyS b.sourceType = true)
    (hu : u ≠ "") (ha : a ≠ "")
    (hres : resolveSource srcs (b.notebookId.getD "") (b.sourceType.getD "")
        b.filePath = Except.ok pay)
    (hg : parseGen g = some p) (ht : truthyS p.title = true) :
    handle ⟨Except.ok b, rb2, some u, some a, srcs, false, true,
        Except.ok g, false, cwf⟩ nb =
      ⟨⟨200, RespBody.ok (p.title.getD "") p.description p.notebook_icon
          p.background_color p.exampleQuestions⟩,
       applyBundle (mkBundle p) { nb with generation_status := some "generating" },
       [WriteOp.setStatus "generating" true,
        WriteOp.setContent (mkBundle p) true],
       true, some pay⟩ ∧
    (p.description = none → (mkBundle p).description = none) ∧
    (p.notebook_icon = none → (mkBundle p).icon = "📝") ∧
    (p.background_color = none → (mkBundle p).color = "gray") ∧
    (∀ f top, f.example_questions = none →
        parseGen (GenData.obj (some f) top) =
          some ⟨f.title, f.summary, f.notebook_icon, f.background_color, []⟩) := by
  have hu2 : truthyS (some u) = true := by simp [truthyS, hu]
  have ha2 : truthyS (some a) = true := by simp [truthyS, ha]
  refine ⟨?_, ?_, ?_, ?_, ?_⟩
  · simp [handle, handleInner, hid, hst, hu2, ha2, hres, hg, ht]
  · intro h; simp [mkBundle, orNull, h]
  · intro h; simp [mkBundle, orDefault, h]
  · intro h; simp [mkBundle, orDefault, h]
  · intro f top h; simp [parseGen, h]

theorem c7_defaulting_witness :
    (handle ⟨Except.ok ⟨some "n1", none, some "text"⟩, Except.error (),
        some "http://svc", some "tok",
        [⟨"n1", "text", some "hello", none, some "Doc", 1⟩],
        false, true,
        Except.ok (GenData.obj (some ⟨some "Doc", none, none, none, none⟩) ⟨none, none, none, none, none⟩),
        false, false⟩ nb0 =
      ⟨⟨200, RespBody.ok "Doc" none none none []⟩,
       applyBundle (mkBundle ⟨some "Doc", none, none, none, []⟩) { nb0 with generation_status := some "generating" },
       [WriteOp.setStatus "generating" true,
        WriteOp.setContent (mkBundle ⟨some "Doc", none, none, none, []⟩) true],
       true, some ⟨"text", some "hello", some "Doc", none⟩⟩) ∧
    ((⟨some "Doc", none, none, none, []⟩ : Parsed).description = none →
      (mkBundle ⟨some "Doc", none, none, none, []⟩).description = none) ∧
    ((⟨some "Doc", none, none, none, []⟩ : Parsed).notebook_icon = none →
      (mkBundle ⟨some "Doc", none, none, none, []⟩).icon = "📝") ∧
    ((⟨some "Doc", none, none, none, []⟩ : Parsed).background_color = none →
      (mkBundle ⟨some "Doc", none, none, none, []⟩).color = "gray") ∧
    (∀ f top, f.example_questions = none →
        parseGen (GenData.obj (some f) top) =
          some ⟨f.title, f.summary, f.notebook_icon, f.background_color, []⟩) :=
  c7_defaulting _ ⟨some "n1", none, some "text"⟩ "http://svc" "tok" _
    (GenData.obj (some ⟨some "Doc", none, none, none, none⟩) ⟨none, none, none, none, none⟩)
    ⟨some "Doc", none, none, none, []⟩
    ⟨"text", some "hello", some "Doc", none⟩ false nb0
    (by decide) (by decide) (by decide) (by decide) (by decide) (by decide)
    (by decide)

/-- Success-path characterization: when the `try` body returns a response
whose body is the success shape, the status is 200 and the notebook was
updated with the defaulted bundle built from the raw fields carried by the
response body. -/
theorem inner_success (w : World) (nb : Notebook) (st : Nat) (t : String)
    (d i c : Option String) (q : List String)
    (hres : (handleInner w nb).result =
        Except.ok ⟨st, RespBody.ok t d i c q⟩) :
    st = 200 ∧
    (handleInner w nb).nb =
      applyBundle ⟨t, orNull d, orDefault i "📝", orDefault c "gray", q⟩
        { nb with generation_status := some "generating" } := by
  cases hrb : w.reqBody with
  | error e => simp [handleInner, hrb] at hres
  | ok b =>
      by_cases h1 : (!truthyS b.notebookId || !truthyS b.sourceType) = true
      · simp [handleInner, hrb, h1] at hres
      · by_cases h2 : (!truthyS w.envUrl || !truthyS w.envAuth) = true
        · simp [handleInner, hrb, h1, h2] at hres
        · cases hr : resolveSource w.sources (b.notebookId.getD "")
              (b.sourceType.getD "") b.filePath with
          | error msg => simp [handleInner, hrb, h1, h2, hr] at hres
          | ok pay =>
              cases hft : w.fetchThrows with
              | true => simp [handleInner, hrb, h1, h2, hr, hft] at hres
              | false =>
                  cases hfo : w.fetchOk with
                  | false =>
                      simp [handleInner, hrb, h1, h2, hr, hft, hfo] at hres
                  | true =>
                      cases hgd : w.genData with
                      | error e =>
                          simp [handleInner, hrb, h1, h2, hr, hft, hfo,
                                hgd] at hres
                      | ok g =>
                          cases hp : parseGen g with
                          | none =>
                              simp [handleInner, hrb, h1, h2, hr, hft, hfo,
                                    hgd, hp] at hres
                          | some p =>
                              by_cases ht : (!truthyS p.title) = true
                              · simp [handleInner, hrb, h1, h2, hr, hft,
                                      hfo, hgd, hp, ht] at hres
                              · cases hnue : w.notebookUpdateError with
                                | true =>
                                    simp [handleInner, hrb, h1, h2, hr, hft,
                                          hfo, hgd, hp, ht, hnue] at hres
                                | false =>
                                    simp [handleInner, hrb, h1, h2, hr, hft,
                                          hfo, hgd, hp, ht, hnue] at hres
                                    simp [handleInner, hrb, h1, h2, hr, hft,
                                          hfo, hgd, hp, ht, hnue,
                                          applyBundle, mkBundle]
                                    simp_all

/-- C10: the 200 success response echoes the raw, un-defaulted values from
the external service's response, while the persisted notebook record
carries the defaulted values: whenever the response body is the success
shape with raw fields `d`, `i`, `c`, the stored record holds `orNull d`,
`orDefault i '📝'` and `orDefault c 'gray'` — in particular when the
service omitted icon, color or description, the body has no value but the
record holds '📝', 'gray' and null respectively, so the two can disagree. -/
theorem c10_response_echoes_raw (w : World) (nb : Notebook) (st : Nat)
    (t : String) (d i c : Option String) (q : List String)
    (hok : (handle w nb).resp = ⟨st, RespBody.ok t d i c q⟩) :
    st = 200 ∧
    (handle w nb).nb.title = some t ∧
    (handle w nb).nb.description = orNull d ∧
    (handle w nb).nb.icon = some (orDefault i "📝") ∧
    (handle w nb).nb.color = some (orDefault c "gray") ∧
    (handle w nb).nb.example_questions = some q ∧
    (handle w nb).nb.generation_status = some "completed" ∧
    (d = none → (handle w nb).nb.description = none) ∧
    (i = none → (handle w nb).nb.icon = some "📝") ∧
    (c = none → (handle w nb).nb.color = some "gray") := by
  cases hres : (handleInner w nb).result with
  | error e =>
      have : (handle w nb).resp = ⟨500, RespBody.err "Internal server error"⟩ := by
        unfold handle; simp [hres]
      rw [this] at hok
      exact absurd hok (by simp)
  | ok r =>
      have hr2 : (handle w nb).resp = r := by unfold handle; simp [hres]
      have hn : (handle w nb).nb = (handleInner w nb).nb := by
        unfold handle; simp [hres]
      rw [hr2] at hok
      subst hok
      obtain ⟨h200, hnb⟩ := inner_success w nb st t d i c q hres
      rw [hn, hnb]
      refine ⟨h200, ?_, ?_, ?_, ?_, ?_, ?_, ?_, ?_, ?_⟩ <;>
        simp [applyBundle]
      · intro h; simp [orNull, h]
      · intro h; simp [orDefault, h]
      · intro h; simp [orDefault, h]

theorem c10_response_echoes_raw_witness :
    (200 : Nat) = 200 ∧
    (handle wS nb0).nb.title = some "Doc" ∧
    (handle wS nb0).nb.description = orNull (some "sum") ∧
    (handle wS nb0).nb.icon = some (orDefault none "📝") ∧
    (handle wS nb0).nb.color = some (orDefault none "gray") ∧
    (handle wS nb0).nb.example_questions = some ["q1"] ∧
    (handle wS nb0).nb.generation_status = some "completed" ∧
    ((some "sum" : Option String) = none → (handle wS nb0).nb.description = none) ∧
    ((none : Option String) = none → (handle wS nb0).nb.icon = some "📝") ∧
    ((none : Option String) = none → (handle wS nb0).nb.color = some "gray") :=
  c10_response_echoes_raw wS nb0 200 "Doc" (some "sum") none none ["q1"]
    (by decide)
